import Mathlib

/-!
# Verification of the `lister_sound_system` playback / stream / volume controller

Shallow embedding of the two Python sources of the repository:

* `extras/sound_system.py` — the Klipper plugin (class `SoundSystem`): sound-file
  verification and resolution, the `PLAY_SOUND` command with its busy / force-now
  policy, ALSA volume management (`_init_volume_state`, `_set_volume`,
  `VOLUME_UP`/`VOLUME_DOWN`), and the `STREAM_RADIO` toggle state machine.
* `components/sound_system_service.py` — the Moonraker component
  (class `SoundSystemService`): its own, looser `_verify_sound_file`.

Filesystem access is modelled by a lookup `String → Option (List Nat)` mapping a
path (relative to the configured sound directory) to the byte content of the
file, `none` meaning "not a regular readable file, or reading raised".  External
process calls (amixer, aplay, mpv, process termination) are modelled by explicit
oracle arguments describing their outcome; the reactor's monotonic clock is
modelled by integer timestamps (only ordering and subtraction are used by the
code).  Each definition names the Python function it embeds.
-/

namespace ListerSound

/-! ## Python string primitives

The Python code uses `str.split(sep)`, `'sub' in s`, `str.strip()` and `int()`.
We embed them as structural recursions over `List Char` so that every claim can
be evaluated on concrete inputs by `decide`. -/

/-- `startsWithL pat s` is true iff `pat` is an initial segment of `s`
(Python `s.startswith(pat)` on character lists). -/
def startsWithL : List Char → List Char → Bool
  | [], _ => true
  | _ :: _, [] => false
  | p :: ps, c :: cs => p = c && startsWithL ps cs

/-- One step of Python `str.split(sep)` for a non-empty separator: fuel-indexed
scan emitting the accumulated chunk whenever `sep` matches. -/
def splitOnAuxL (sep : List Char) : Nat → List Char → List Char → List (List Char)
  | _, acc, [] => [acc.reverse]
  | 0, acc, rest => [acc.reverse ++ rest]
  | Nat.succ fuel, acc, c :: cs =>
    if startsWithL sep (c :: cs) then
      acc.reverse :: splitOnAuxL sep fuel [] (List.drop (sep.length - 1) cs)
    else
      splitOnAuxL sep fuel (c :: acc) cs

/-- Python `s.split(sep)` for a non-empty separator `sep`. -/
def pySplit (s sep : String) : List String :=
  (splitOnAuxL sep.data s.data.length [] s.data).map (fun l => String.mk l)

/-- `containsSubL sub s`: `sub` occurs as a contiguous run in `s`. -/
def containsSubL (sub : List Char) : List Char → Bool
  | [] => sub.isEmpty
  | c :: cs => startsWithL sub (c :: cs) || containsSubL sub cs

/-- Python `sub in s` (substring containment). -/
def pyContains (s sub : String) : Bool := containsSubL sub.data s.data

/-- Python whitespace as stripped by `int()` / `str.strip()`. -/
def isPySpace (c : Char) : Bool :=
  c = ' ' || c = '\t' || c = '\n' || c = '\r' || c = '\x0b' || c = '\x0c'

/-- Strip leading and trailing whitespace. -/
def trimL (cs : List Char) : List Char :=
  ((cs.dropWhile isPySpace).reverse.dropWhile isPySpace).reverse

/-- Accumulate a decimal value over a digit run; `none` on any non-digit. -/
def digitsToNatAux : Nat → List Char → Option Nat
  | acc, [] => some acc
  | acc, c :: cs =>
    if c.isDigit then digitsToNatAux (acc * 10 + (c.toNat - 48)) cs else none

/-- A non-empty all-digit run parsed as a natural number. -/
def digitsToNat? : List Char → Option Nat
  | [] => none
  | cs => digitsToNatAux 0 cs

/-- Python `int(s)`: strip whitespace, optional sign, decimal digits;
`none` models a raised `ValueError`. -/
def pyInt? (s : String) : Option Int :=
  match trimL s.data with
  | '-' :: rest => (digitsToNat? rest).map (fun n => -(n : Int))
  | '+' :: rest => (digitsToNat? rest).map (fun n => (n : Int))
  | cs => (digitsToNat? cs).map (fun n => (n : Int))

/-! ## Python `pathlib.PurePath.with_suffix`

`sound_path.with_suffix('.wav')` does not simply append: pathlib first computes
the existing suffix of the final component (the segment from the last dot,
provided that dot is neither the first character nor the last one) and replaces
it.  We embed exactly that computation. -/

/-- Index of the last `'.'` in a character list, if any. -/
def lastDotIdx : List Char → Option Nat
  | [] => none
  | c :: cs =>
    match lastDotIdx cs with
    | some i => some (i + 1)
    | none => if c = '.' then some 0 else none

/-- Length of the pathlib suffix of a name: `name[i:]` where `i` is the last
dot position, provided `0 < i < len(name) - 1`; otherwise the suffix is empty. -/
def pySuffixLen (cs : List Char) : Nat :=
  match lastDotIdx cs with
  | some i => if 0 < i ∧ i + 1 < cs.length then cs.length - i else 0
  | none => 0

/-- Python `PurePath(name).with_suffix(suf)`: drop the existing suffix (if any)
and append `suf`. -/
def pyWithSuffix (cs suf : List Char) : List Char :=
  cs.take (cs.length - pySuffixLen cs) ++ suf

/-- `name.with_suffix('.wav')` on the final path component, as used by
`_find_sound_file` (sound_system.py line 180). -/
def withSuffixWav (s : String) : String := String.mk (pyWithSuffix s.data ".wav".data)

/-! ## WAV header verification (both implementations) -/

/-- The bytes of `b'RIFF'`. -/
def riffBytes : List Nat := [82, 73, 70, 70]

/-- The bytes of `b'WAVE'`. -/
def waveBytes : List Nat := [87, 65, 86, 69]

namespace SoundSystem

/-- `SoundSystem._verify_sound_file` (sound_system.py lines 156-169): the file
must be a regular readable file (`content = some bs`; `none` covers a missing
or non-regular file and any raised exception, both of which return `False`),
`f.read(12)` returns the first `min 12 |bs|` bytes, and the check is
`header.startswith(b'RIFF') and header[8:12] == b'WAVE'` with Python slice
semantics (a short slice compares unequal). -/
def _verify_sound_file (content : Option (List Nat)) : Bool :=
  match content with
  | none => false
  | some bs =>
    let header := bs.take 12
    decide (header.take 4 = riffBytes) && decide ((header.drop 8).take 4 = waveBytes)

/-- `SoundSystem._find_sound_file` (sound_system.py lines 171-184): try the
spec verbatim under the sound directory, then `with_suffix('.wav')`.  The
filesystem lookup is keyed by the path relative to `sound_dir`. -/
def _find_sound_file (fs : String → Option (List Nat)) (sound_name : String) :
    Option String :=
  if _verify_sound_file (fs sound_name) then some sound_name
  else
    let wav_path := withSuffixWav sound_name
    if _verify_sound_file (fs wav_path) then some wav_path
    else none

end SoundSystem

namespace SoundSystemService

/-- `SoundSystemService._verify_sound_file` (sound_system_service.py lines
62-72): reads only 4 bytes and checks `header == b'RIFF'`; there is no `WAVE`
check in this implementation. -/
def _verify_sound_file (content : Option (List Nat)) : Bool :=
  match content with
  | none => false
  | some bs => decide (bs.take 4 = riffBytes)

end SoundSystemService

/-! ## Refinement model of the spec's resolution wording (for claim C6) -/

/-- Modelled from the spec's words, for comparison with the code: the spec says
the second candidate is the spec "with a `.wav` suffix appended (only if not
already present)", i.e. an existing different extension is kept. -/
def spec_second_candidate (name : String) : String :=
  if List.isSuffixOf (".wav".data) name.data then name else name ++ ".wav"

/-- Modelled from the spec's words: resolution per the spec's description of
path construction — verbatim first, then the appended-suffix candidate. -/
def spec_find_sound_file (fs : String → Option (List Nat)) (name : String) :
    Option String :=
  if SoundSystem._verify_sound_file (fs name) then some name
  else
    let cand := spec_second_candidate name
    if SoundSystem._verify_sound_file (fs cand) then some cand
    else none

namespace SoundSystem

/-! ## PLAY_SOUND (sound_system.py lines 186-261)

State visible to the command handler.  `sound_playing` is the
`self._sound_playing` flag; `current_sound` is ghost state recording which
sound the spawned `aplay` process (if any) was started on; `pending` records a
`start_playback` reactor callback registered but not yet run, with the captured
`sound_path` and `force_now` values. -/

structure PlayState where
  sound_playing : Bool
  current_sound : Option String
  pending : Option (String × Int)
  deriving DecidableEq

/-- Outcome of one `cmd_PLAY_SOUND` invocation.  `errAplayMissing`,
`errMissingSound` and `errSoundNotFound` are raised `gcmd.error`s; `busyInfo`
is the `respond_info("Sound already playing, request ignored")` path;
`accepted` means the handler registered the playback callback and returned. -/
inductive PlayResult where
  | errAplayMissing
  | busyInfo
  | errMissingSound
  | errSoundNotFound (name : String)
  | accepted
  deriving DecidableEq

/-- `SoundSystem.cmd_PLAY_SOUND` (lines 216-261).  Arguments: `aplayAvail` is
`self.aplay_path` being non-null; `fs` the filesystem; `soundParam` the SOUND
parameter (`none` or the empty string lead to the missing-parameter error);
`nowParam` is `gcmd.get_int('NOW', 0)`; `killRaises` tells whether the
`psutil`/`os.kill` sweep in the force branch raises (in which case the
`self._sound_playing = False` line inside the `try` is skipped).  Returns the
result and the state after the handler returns (the callback has not run). -/
def cmd_PLAY_SOUND (aplayAvail : Bool) (fs : String → Option (List Nat))
    (soundParam : Option String) (nowParam : Int) (killRaises : Bool)
    (st : PlayState) : PlayResult × PlayState :=
  if aplayAvail = false then (.errAplayMissing, st)
  else if st.sound_playing = true ∧ nowParam = 0 then (.busyInfo, st)
  else
    match soundParam with
    | none => (.errMissingSound, st)
    | some sound_name =>
      if sound_name = "" then (.errMissingSound, st)
      else
        match _find_sound_file fs sound_name with
        | none => (.errSoundNotFound sound_name, st)
        | some sound_path =>
          let st1 :=
            if nowParam ≠ 0 ∧ st.sound_playing = true then
              if killRaises then st else { st with sound_playing := false }
            else st
          (.accepted, { st1 with pending := some (sound_path, nowParam) })

/-- The registered `start_playback` callback together with the first action of
`_play_sound_thread` (lines 186-196 and 251-258): if the flag is clear or NOW
was set, the thread is started, which sets `self._sound_playing = True` and
spawns `aplay` on the captured path.  Returns the new state and whether a
player was spawned. -/
def start_playback (st : PlayState) : PlayState × Bool :=
  match st.pending with
  | none => (st, false)
  | some (path, force) =>
    if st.sound_playing = false ∨ force ≠ 0 then
      ({ st with sound_playing := true, current_sound := some path,
                 pending := none }, true)
    else ({ st with pending := none }, false)

/-- The `finally` clause of `_play_sound_thread` (lines 212-214): on completion
(success, failure or timeout-kill) the flag is cleared. -/
def _play_sound_thread_end (st : PlayState) : PlayState :=
  { st with sound_playing := false, current_sound := none }

/-! ## Volume control (sound_system.py lines 79-122 and 281-301) -/

/-- Mixer clamp bounds and step, from config. -/
structure VolumeCfg where
  min_volume : Int
  max_volume : Int
  volume_step : Int
  deriving DecidableEq

/-- Outcome of the `subprocess.run` that sets the volume (timeout=5):
`completed rc` is a finished run with exit code `rc`; `timeoutExpired` is a
raised `subprocess.TimeoutExpired`; `raisedExn` any other exception. -/
inductive MixerSetResult where
  | completed (rc : Int)
  | timeoutExpired
  | raisedExn
  deriving DecidableEq

/-- `SoundSystem._set_volume` (lines 102-122): clamp, issue
`amixer -M sset PCM {volume}%`, update `self._current_volume` only on exit
code 0.  Returns (success flag, new `_current_volume`, the clamped volume
passed to the amixer call). -/
def _set_volume (cfg : VolumeCfg) (cur : Option Int) (target : Int)
    (os : MixerSetResult) : Bool × Option Int × Int :=
  let volume := max cfg.min_volume (min cfg.max_volume target)
  match os with
  | .completed rc => if rc = 0 then (true, some volume, volume) else (false, cur, volume)
  | .timeoutExpired => (false, cur, volume)
  | .raisedExn => (false, cur, volume)

/-- Outcome of the `subprocess.run` that queries the mixer in
`_init_volume_state` (no timeout argument): a raised exception or a completed
run with exit code and stdout text. -/
inductive MixerQueryResult where
  | raisedExn
  | completed (rc : Int) (stdout : String)
  deriving DecidableEq

/-- `SoundSystem._init_volume_state` (lines 79-100), as written: on a raised
exception the default 50 is stored; on a completed run with exit code 0 whose
stdout contains `'Mono:'`, the first such line is parsed as
`int(line.split('[')[1].split('%]')[0])`, storing the value on success and 50
on `IndexError`/`ValueError`.  On exit code 0 without a `'Mono:'` line, and on
a non-zero exit code, nothing is assigned and `_current_volume` keeps its
previous value. -/
def _init_volume_state (cur : Option Int) (q : MixerQueryResult) : Option Int :=
  match q with
  | .raisedExn => some 50
  | .completed rc out =>
    if rc = 0 then
      if pyContains out "Mono:" then
        match (pySplit out "\n").filter (fun l => pyContains l "Mono:") with
        | [] => some 50
        | mono_line :: _ =>
          match pySplit mono_line "[" with
          | _ :: p1 :: _ =>
            match pySplit p1 "%]" with
            | v0 :: _ =>
              match pyInt? v0 with
              | some n => some n
              | none => some 50
            | [] => some 50
          | _ => some 50
      else cur
    else cur

/-- `SoundSystem.cmd_VOLUME_UP` (lines 281-290): lazily initialize, compute
`self._current_volume + self.volume_step`, delegate to `_set_volume`.  The
result is `none` when `_current_volume` is still `None` after initialization —
the Python `None + int` raises an uncaught `TypeError`.  Otherwise
`some (ok, new_current_volume)` where `ok = false` corresponds to the raised
`gcmd.error("Volume adjustment failed")`. -/
def cmd_VOLUME_UP (cfg : VolumeCfg) (cur : Option Int) (q : MixerQueryResult)
    (os : MixerSetResult) : Option (Bool × Option Int) :=
  let cur1 := match cur with
    | none => _init_volume_state cur q
    | some c => some c
  match cur1 with
  | none => none
  | some c =>
    let r := _set_volume cfg cur1 (c + cfg.volume_step) os
    some (r.1, r.2.1)

/-! ## STREAM_RADIO (sound_system.py lines 303-385)

`stream_active` models `self._stream_process is not None` as seen by the
command handler; `pending_stream` records a registered but not yet executed
`start_stream` callback with its captured URL. -/

structure RadioState where
  stream_active : Bool
  last_stream_stop_time : Option Int
  current_stream_index : Nat
  pending_stream : Option String
  deriving DecidableEq

/-- Outcome of one STREAM_RADIO toggle.  `errMpvMissing` is the raised
`gcmd.error("mpv not available")`; `stoppedInfo` the
`respond_info("Stopped radio stream")` path; `startingInfo idx url` the
`respond_info("Starting radio stream ...")` path after registering the start
callback; `crashed` an uncaught Python exception (`ZeroDivisionError` from
`% len(stream_urls)` with an empty list, or `IndexError` from
`stream_urls[...]`). -/
inductive RadioResult where
  | errMpvMissing
  | stoppedInfo
  | startingInfo (idx : Nat) (url : String)
  | crashed
  deriving DecidableEq

/-- Lines 374-385: read `stream_urls[current_stream_index]`, register the
`start_stream` callback capturing that URL, and respond. -/
def radio_start (urls : List String) (st : RadioState) : RadioResult × RadioState :=
  match urls.get? st.current_stream_index with
  | some url =>
    (.startingInfo st.current_stream_index url, { st with pending_stream := some url })
  | none => (.crashed, st)

/-- `SoundSystem.cmd_STREAM_RADIO` (lines 344-385).  `termRaises` tells
whether `self._stream_process.terminate()` / `.wait()` raises in the stop
branch: on success the branch clears the process, records
`last_stream_stop_time = now` and returns; on an exception it logs, clears the
process and falls through to the start logic without recording the stop time.
The index advances by `(i + 1) % len(stream_urls)` only when the previous stop
happened within `stream_switch_timeout` of `now`. -/
def cmd_STREAM_RADIO (mpvAvail : Bool) (urls : List String) (timeout : Int)
    (now : Int) (termRaises : Bool) (st : RadioState) : RadioResult × RadioState :=
  if mpvAvail = false then (.errMpvMissing, st)
  else if st.stream_active = true ∧ termRaises = false then
    (.stoppedInfo, { st with stream_active := false,
                             last_stream_stop_time := some now })
  else
    let st0 := { st with stream_active := false }
    match st0.last_stream_stop_time with
    | some t =>
      if now - t ≤ timeout then
        if urls.length = 0 then (.crashed, st0)
        else radio_start urls
          { st0 with current_stream_index :=
              (st0.current_stream_index + 1) % urls.length }
      else radio_start urls st0
    | none => radio_start urls st0

/-- `SoundSystem._start_stream_thread` (lines 322-342), run later on a worker
thread: terminate any tracked process, sweep orphaned `mpv` processes, spawn
`mpv` on the captured URL; on success `_stream_process` is the new handle, on
any exception it is set to `None`.  No result is ever surfaced to the caller:
the only externally visible effect is the state. -/
def _start_stream_thread (spawnRaises : Bool) (st : RadioState) : RadioState :=
  match st.pending_stream with
  | none => st
  | some _ =>
    if spawnRaises then { st with stream_active := false, pending_stream := none }
    else { st with stream_active := true, pending_stream := none }

end SoundSystem

/-! ## Concrete fixtures used by witnesses and counterexamples -/

open SoundSystem

/-- Twelve bytes forming a valid RIFF/WAVE header: `RIFF`, four size bytes,
`WAVE`. -/
def goodWavBytes : List Nat := [82, 73, 70, 70, 0, 0, 0, 0, 87, 65, 86, 69]

/-- Twelve bytes whose first four are `RIFF` but whose bytes 8-11 are `NOPE`
instead of `WAVE`: a corrupted WAV header. -/
def riffOnlyBytes : List Nat := [82, 73, 70, 70, 0, 0, 0, 0, 78, 79, 80, 69]

/-- A sound directory containing exactly one valid file `b.wav`. -/
def fsOnlyB : String → Option (List Nat) :=
  fun n => if n = "b.wav" then some goodWavBytes else none

/-- A sound directory containing exactly one valid file `beep.mp3.wav`. -/
def fsBeep : String → Option (List Nat) :=
  fun n => if n = "beep.mp3.wav" then some goodWavBytes else none

/-- A playback state in which sound `a.wav` is currently playing. -/
def playingState : PlayState :=
  { sound_playing := true, current_sound := some "a.wav", pending := none }

/-- Radio state: no active stream, last stop recorded at time 0, index 0. -/
def radioIdle : RadioState :=
  { stream_active := false, last_stream_stop_time := some 0,
    current_stream_index := 0, pending_stream := none }

/-- Radio state: an active stream, last stop at time 0, index 0. -/
def radioActive : RadioState :=
  { stream_active := true, last_stream_stop_time := some 0,
    current_stream_index := 0, pending_stream := none }

/-- Radio state: an active stream, last stop at time 0, index 1. -/
def radioActiveB : RadioState :=
  { stream_active := true, last_stream_stop_time := some 0,
    current_stream_index := 1, pending_stream := none }

/-- A two-URL stream list. -/
def urlsTwo : List String := ["u0", "u1"]

/-- A three-URL stream list, as in the default configuration. -/
def urlsThree : List String := ["u0", "u1", "u2"]

/-- amixer output of a stereo card: no `Mono:` line at all, exit code 0. -/
def stereoAmixerOut : String := "Front Left: Playback 80 [80%]"

/-! ## Claim C2 -/

/-- C2 counterexample: the claimed RIFF-and-WAVE iff fails for the Moonraker
service implementation.  On a file whose bytes are `RIFF`, four zeros, `NOPE`,
the service's `_verify_sound_file` returns `true` although bytes 8-11 are not
`WAVE` (the plugin implementation returns `false` on the same file). -/
theorem verify_service_riff_only_counterexample :
    SoundSystemService._verify_sound_file (some riffOnlyBytes) = true ∧
    ¬ (riffOnlyBytes.drop 8).take 4 = waveBytes ∧
    SoundSystem._verify_sound_file (some riffOnlyBytes) = false := by
  decide

/-- C2 (amended): the plugin implementation (`extras/sound_system.py`) returns
`true` iff the path is a regular readable file whose bytes 0-3 are `RIFF` and
bytes 8-11 are `WAVE` (so any truncated or corrupted header yields `false`);
the service implementation (`components/sound_system_service.py`) returns
`true` iff the file is regular and readable and its bytes 0-3 are `RIFF`,
without checking `WAVE`. -/
theorem verify_sound_file_both (content : Option (List Nat)) :
    (SoundSystem._verify_sound_file content = true ↔
      ∃ bs, content = some bs ∧ bs.take 4 = riffBytes ∧
        (bs.drop 8).take 4 = waveBytes) ∧
    (SoundSystemService._verify_sound_file content = true ↔
      ∃ bs, content = some bs ∧ bs.take 4 = riffBytes) := by
  constructor
  · cases content with
    | none => simp [SoundSystem._verify_sound_file]
    | some bs =>
      simp only [SoundSystem._verify_sound_file, Bool.and_eq_true, decide_eq_true_eq,
        List.take_take, List.drop_take, Option.some.injEq]
      constructor
      · rintro ⟨h1, h2⟩
        refine ⟨bs, rfl, ?_, ?_⟩
        · simpa using h1
        · simpa using h2
      · rintro ⟨bs', hbs, h1, h2⟩
        cases hbs
        constructor
        · simpa using h1
        · simpa using h2
  · cases content with
    | none => simp [SoundSystemService._verify_sound_file]
    | some bs =>
      simp only [SoundSystemService._verify_sound_file, decide_eq_true_eq,
        Option.some.injEq]
      constructor
      · intro h; exact ⟨bs, rfl, h⟩
      · rintro ⟨bs', hbs, h1⟩
        cases hbs
        exact h1

/-- C2 witness: the amended characterization evaluated at a concrete valid
WAV header. -/
theorem verify_sound_file_both_witness :
    (SoundSystem._verify_sound_file (some goodWavBytes) = true ↔
      ∃ bs, (some goodWavBytes : Option (List Nat)) = some bs ∧
        bs.take 4 = riffBytes ∧ (bs.drop 8).take 4 = waveBytes) ∧
    (SoundSystemService._verify_sound_file (some goodWavBytes) = true ↔
      ∃ bs, (some goodWavBytes : Option (List Nat)) = some bs ∧
        bs.take 4 = riffBytes) :=
  verify_sound_file_both (some goodWavBytes)

/-! ## Claim C3 -/

/-- C3: a PLAY_SOUND invocation arriving while a sound is playing, with the
NOW flag at its default 0, is rejected as busy: the handler responds with the
informational "already playing" message (no raised error), the state is
unchanged, and no playback callback is registered — for every filesystem and
every (even missing or unresolvable) SOUND parameter.  `aplayAvail = true`
holds in every reachable invocation since the command is only registered when
`aplay` was found. -/
theorem play_sound_busy_reject (fs : String → Option (List Nat))
    (soundParam : Option String) (killRaises : Bool) (st : PlayState)
    (hplay : st.sound_playing = true) :
    cmd_PLAY_SOUND true fs soundParam 0 killRaises st = (.busyInfo, st) := by
  simp [cmd_PLAY_SOUND, hplay]

/-- C3 witness: concrete busy rejection with a playing state. -/
theorem play_sound_busy_reject_witness :
    playingState.sound_playing = true ∧
    cmd_PLAY_SOUND true fsOnlyB (some "b") 0 false playingState
      = (.busyInfo, playingState) :=
  ⟨rfl, play_sound_busy_reject fsOnlyB (some "b") false playingState rfl⟩

/-! ## Claim C4 -/

/-- C4: `_set_volume` clamps the target into `[min_volume, max_volume]` before
issuing the amixer call (the third component is the value passed to the OS
call), succeeds exactly when the call completes with exit code 0 within the
timeout, updates the in-memory volume to the clamped value only in that case,
and on timeout, non-zero exit or any other failure reports failure and leaves
the in-memory volume unchanged. -/
theorem set_volume_clamp_and_update (cfg : VolumeCfg) (cur : Option Int)
    (target : Int) (os : MixerSetResult)
    (hcfg : cfg.min_volume ≤ cfg.max_volume) :
    (_set_volume cfg cur target os).2.2
        = max cfg.min_volume (min cfg.max_volume target) ∧
    cfg.min_volume ≤ (_set_volume cfg cur target os).2.2 ∧
    (_set_volume cfg cur target os).2.2 ≤ cfg.max_volume ∧
    ((_set_volume cfg cur target os).1 = true ↔ os = .completed 0) ∧
    ((_set_volume cfg cur target os).1 = true →
      (_set_volume cfg cur target os).2.1
        = some (max cfg.min_volume (min cfg.max_volume target))) ∧
    ((_set_volume cfg cur target os).1 = false →
      (_set_volume cfg cur target os).2.1 = cur) := by
  have hlo : cfg.min_volume ≤ max cfg.min_volume (min cfg.max_volume target) :=
    le_max_left _ _
  have hhi : max cfg.min_volume (min cfg.max_volume target) ≤ cfg.max_volume :=
    max_le hcfg (min_le_left _ _)
  rcases os with rc | _ | _
  · by_cases hrc : rc = 0
    · subst hrc
      simp [_set_volume, hlo, hhi]
    · simp [_set_volume, hrc, hlo, hhi]
  · simp [_set_volume, hlo, hhi]
  · simp [_set_volume, hlo, hhi]

/-- C4 witness: target 150 with bounds [0, 100] is clamped to 100; on a
successful call the stored volume becomes 100. -/
theorem set_volume_clamp_and_update_witness :
    ((0 : Int) ≤ 100) ∧
    ((_set_volume ⟨0, 100, 5⟩ (some 20) 150 (.completed 0)).2.2 = max 0 (min 100 150) ∧
      (0 : Int) ≤ (_set_volume ⟨0, 100, 5⟩ (some 20) 150 (.completed 0)).2.2 ∧
      (_set_volume ⟨0, 100, 5⟩ (some 20) 150 (.completed 0)).2.2 ≤ 100 ∧
      ((_set_volume ⟨0, 100, 5⟩ (some 20) 150 (.completed 0)).1 = true ↔
        (MixerSetResult.completed 0) = .completed 0) ∧
      ((_set_volume ⟨0, 100, 5⟩ (some 20) 150 (.completed 0)).1 = true →
        (_set_volume ⟨0, 100, 5⟩ (some 20) 150 (.completed 0)).2.1
          = some (max 0 (min 100 150))) ∧
      ((_set_volume ⟨0, 100, 5⟩ (some 20) 150 (.completed 0)).1 = false →
        (_set_volume ⟨0, 100, 5⟩ (some 20) 150 (.completed 0)).2.1 = some 20)) :=
  ⟨by decide, set_volume_clamp_and_update ⟨0, 100, 5⟩ (some 20) 150 (.completed 0)
    (by decide)⟩

/-! ## Claim C8 -/

/-- C8 (code bug): initialization does NOT fall back to 50 on every possible
mixer output.  When amixer exits with code 0 but its stdout has no `Mono:`
line (a stereo card), `_init_volume_state` assigns nothing and
`_current_volume` stays `None`, so a subsequent `VOLUME_UP` evaluates
`None + step` and crashes with an uncaught `TypeError` (modelled as `none`).
The same happens on a non-zero exit code.  The fallback does work for a raised
exception, a parseable `Mono:` line, and a malformed `Mono:` line. -/
theorem init_volume_no_mono_line_bug :
    _init_volume_state none (.completed 0 stereoAmixerOut) = none ∧
    cmd_VOLUME_UP ⟨0, 100, 5⟩ none (.completed 0 stereoAmixerOut) (.completed 0)
      = none ∧
    _init_volume_state none (.completed 1 "  Mono: Playback 203 [80%] [on]")
      = none ∧
    _init_volume_state none .raisedExn = some 50 ∧
    _init_volume_state none (.completed 0 "  Mono: Playback 203 [80%] [on]")
      = some 80 ∧
    _init_volume_state none (.completed 0 "  Mono: Playback [what%]") = some 50 := by
  decide

/-! ## Claim C10 -/

/-- C10: the busy check in `cmd_PLAY_SOUND` comes before the SOUND parameter
is read and before resolution: while a sound is playing and NOW is at its
default 0, the command returns the busy response and an unchanged state for
every SOUND parameter (missing or unresolvable included) and every filesystem;
conversely the missing-parameter and not-found errors are only reachable when
no sound is playing or NOW is non-zero (with the documented parameter domain
`NOW ∈ {0, 1}`, non-zero means `NOW=1`). -/
theorem busy_check_precedes_parameters (fs : String → Option (List Nat))
    (soundParam : Option String) (now : Int) (killRaises : Bool) (st : PlayState) :
    (st.sound_playing = true → now = 0 →
      cmd_PLAY_SOUND true fs soundParam now killRaises st = (.busyInfo, st)) ∧
    ((cmd_PLAY_SOUND true fs soundParam now killRaises st).1 = .errMissingSound ∨
      (∃ n, (cmd_PLAY_SOUND true fs soundParam now killRaises st).1
        = .errSoundNotFound n) →
      st.sound_playing = false ∨ now ≠ 0) := by
  constructor
  · intro h1 h2
    simp [cmd_PLAY_SOUND, h1, h2]
  · intro herr
    by_contra hcon
    push_neg at hcon
    obtain ⟨hplay, hnow⟩ := hcon
    have hplay' : st.sound_playing = true := by
      cases h : st.sound_playing
      · exact absurd h hplay
      · rfl
    have hbusy : cmd_PLAY_SOUND true fs soundParam now killRaises st
        = (.busyInfo, st) := by
      simp [cmd_PLAY_SOUND, hplay', hnow]
    rcases herr with h | ⟨n, h⟩
    · rw [hbusy] at h
      exact PlayResult.noConfusion h
    · rw [hbusy] at h
      exact PlayResult.noConfusion h

/-- C10 witness: with a sound playing, NOW=0 and a missing SOUND parameter,
the command still answers busy rather than raising; and the error-reachability
implication instantiated there. -/
theorem busy_check_precedes_parameters_witness :
    (playingState.sound_playing = true → (0 : Int) = 0 →
      cmd_PLAY_SOUND true fsOnlyB none 0 false playingState
        = (.busyInfo, playingState)) ∧
    ((cmd_PLAY_SOUND true fsOnlyB none 0 false playingState).1 = .errMissingSound ∨
      (∃ n, (cmd_PLAY_SOUND true fsOnlyB none 0 false playingState).1
        = .errSoundNotFound n) →
      playingState.sound_playing = false ∨ (0 : Int) ≠ 0) :=
  busy_check_precedes_parameters fsOnlyB none 0 false playingState

/-! ## Claim C1 -/

/-- C1: on a toggle with no active stream, the index decision of
`cmd_STREAM_RADIO` follows the timeout policy: with a recorded stop within
the switch timeout the index advances to `(current + 1) % len(stream_urls)`
before the stream start is scheduled (the start response carries the advanced
index); with a recorded stop beyond the timeout the index is unchanged; and
with no stop ever recorded the index is unchanged (hence still 0 in the
initial state). -/
theorem stream_radio_index_policy (urls : List String) (timeout now : Int)
    (termRaises : Bool) (st : RadioState)
    (hact : st.stream_active = false)
    (hidx : st.current_stream_index < urls.length) :
    (∀ t, st.last_stream_stop_time = some t → now - t ≤ timeout →
      ( cmd_STREAM_RADIO true urls timeout now termRaises st).2.current_stream_index
          = (st.current_stream_index + 1) % urls.length ∧
      ∃ url, ( cmd_STREAM_RADIO true urls timeout now termRaises st).1
          = RadioResult.startingInfo ((st.current_stream_index + 1) % urls.length) url) ∧
    (∀ t, st.last_stream_stop_time = some t → timeout < now - t →
      ( cmd_STREAM_RADIO true urls timeout now termRaises st).2.current_stream_index
          = st.current_stream_index) ∧
    (st.last_stream_stop_time = none →
      ( cmd_STREAM_RADIO true urls timeout now termRaises st).2.current_stream_index
          = st.current_stream_index) := by
  have hlen : 0 < urls.length := Nat.lt_of_le_of_lt (Nat.zero_le _) hidx
  refine ⟨?_, ?_, ?_⟩
  · intro t ht hle
    have hmod : (st.current_stream_index + 1) % urls.length < urls.length :=
      Nat.mod_lt _ hlen
    have hurl := List.getElem?_eq_getElem hmod
    simp [ cmd_STREAM_RADIO, radio_start, hact, ht, hle,
      Nat.ne_of_gt hlen, hurl, not_lt.mpr hle]
  · intro t ht hgt
    have hurl := List.getElem?_eq_getElem hidx
    simp [ cmd_STREAM_RADIO, radio_start, hact, ht, not_le.mpr hgt, hurl]
  · intro ht
    have hurl := List.getElem?_eq_getElem hidx
    simp [ cmd_STREAM_RADIO, radio_start, hact, ht, hurl]

/-- C1 witness: with `stream_switch_timeout = 60`, a stop recorded at t=0 and
index 0 over three streams, a restart at t=10 advances to index 1, and a
restart at t=70 keeps index 0. -/
theorem stream_radio_index_policy_witness :
    radioIdle.stream_active = false ∧
    radioIdle.current_stream_index < urlsThree.length ∧
    ( cmd_STREAM_RADIO true urlsThree 60 10 false radioIdle).2.current_stream_index
      = 1 ∧
    ( cmd_STREAM_RADIO true urlsThree 60 70 false radioIdle).2.current_stream_index
      = 0 := by
  have h10 := (stream_radio_index_policy urlsThree 60 10 false radioIdle rfl
    (by decide)).1 0 rfl (by decide)
  have h70 := (stream_radio_index_policy urlsThree 60 70 false radioIdle rfl
    (by decide)).2.1 0 rfl (by decide)
  exact ⟨rfl, by decide, by simpa [radioIdle, urlsThree] using h10.1,
    by simpa [radioIdle] using h70⟩

/-! ## Claim C5 -/

/-- C5 counterexample: after a forced `PLAY_SOUND SOUND=b NOW=1` issued while
`a.wav` is playing completes, the playback flag reads idle (`False`), not
"playing": the handler clears `self._sound_playing` in the force branch and
the new `True` is only set later by the playback thread.  The claim's
"never idle immediately after the forced call completes" is therefore false. -/
theorem force_play_flag_idle_counterexample :
    playingState.sound_playing = true ∧
    (cmd_PLAY_SOUND true fsOnlyB (some "b") 1 false playingState).1 = .accepted ∧
    (cmd_PLAY_SOUND true fsOnlyB (some "b") 1 false playingState).2.sound_playing
      = false := by
  decide

/-- C5 (amended): a forced play request while a sound is playing signals the
existing player, resets the flag to idle (so the handler returns with the flag
reading `False`), and registers the playback callback for the new sound; once
the scheduled callback runs and the playback worker starts, the flag reads
playing and the new sound is the one playing. -/
theorem force_play_preempt_amended (fs : String → Option (List Nat))
    (s path : String) (now : Int) (st : PlayState)
    (hplay : st.sound_playing = true) (hnow : now ≠ 0) (hs : s ≠ "")
    (hfind : _find_sound_file fs s = some path) :
    (cmd_PLAY_SOUND true fs (some s) now false st).1 = .accepted ∧
    (cmd_PLAY_SOUND true fs (some s) now false st).2.sound_playing = false ∧
    (cmd_PLAY_SOUND true fs (some s) now false st).2.pending = some (path, now) ∧
    (start_playback (cmd_PLAY_SOUND true fs (some s) now false st).2).2 = true ∧
    (start_playback
      (cmd_PLAY_SOUND true fs (some s) now false st).2).1.sound_playing = true ∧
    (start_playback
      (cmd_PLAY_SOUND true fs (some s) now false st).2).1.current_sound
      = some path := by
  simp [cmd_PLAY_SOUND, start_playback, hplay, hnow, hs, hfind]

/-- C5 witness: the amended statement at the concrete forced request
`PLAY_SOUND SOUND=b NOW=1` while `a.wav` is playing. -/
theorem force_play_preempt_amended_witness :
    (cmd_PLAY_SOUND true fsOnlyB (some "b") 1 false playingState).1 = .accepted ∧
    (cmd_PLAY_SOUND true fsOnlyB (some "b") 1 false playingState).2.sound_playing
      = false ∧
    (cmd_PLAY_SOUND true fsOnlyB (some "b") 1 false playingState).2.pending
      = some ("b.wav", 1) ∧
    (start_playback (cmd_PLAY_SOUND true fsOnlyB (some "b") 1 false
      playingState).2).2 = true ∧
    (start_playback (cmd_PLAY_SOUND true fsOnlyB (some "b") 1 false
      playingState).2).1.sound_playing = true ∧
    (start_playback (cmd_PLAY_SOUND true fsOnlyB (some "b") 1 false
      playingState).2).1.current_sound = some "b.wav" :=
  force_play_preempt_amended fsOnlyB "b" "b.wav" 1 playingState rfl
    (by decide) (by decide) (by decide)

/-! ## Claim C6 -/

/-- C6 counterexample: the second candidate is not "append `.wav` unless
already present".  For the spec name `beep.mp3`, `with_suffix('.wav')`
REPLACES the existing extension, giving `beep.wav`, not `beep.mp3.wav`; on a
directory containing only the valid file `beep.mp3.wav`, the code reports
not-found while the spec's wording would resolve it. -/
theorem find_sound_file_suffix_counterexample :
    withSuffixWav "beep.mp3" = "beep.wav" ∧
    spec_second_candidate "beep.mp3" = "beep.mp3.wav" ∧
    SoundSystem._find_sound_file fsBeep "beep.mp3" = none ∧
    spec_find_sound_file fsBeep "beep.mp3" = some "beep.mp3.wav" := by
  decide

/-- C6 (amended): resolution tries the spec verbatim under the sound directory
first; only if that fails it tries the spec with its pathlib suffix replaced
by `.wav` (so `.wav` is appended exactly when the name has no suffix, while an
existing different extension IS replaced); if neither candidate verifies,
resolution reports not-found and the command raises the descriptive not-found
error. -/
theorem find_sound_file_resolution_amended (fs : String → Option (List Nat))
    (name : String) (st : PlayState) (now : Int)
    (hbusy : st.sound_playing = false ∨ now ≠ 0) (hname : name ≠ "") :
    (SoundSystem._verify_sound_file (fs name) = true →
      SoundSystem._find_sound_file fs name = some name) ∧
    (SoundSystem._verify_sound_file (fs name) = false →
      SoundSystem._find_sound_file fs name =
        (if SoundSystem._verify_sound_file (fs (withSuffixWav name)) = true
         then some (withSuffixWav name) else none)) ∧
    (pySuffixLen name.data = 0 → withSuffixWav name = name ++ ".wav") ∧
    (SoundSystem._find_sound_file fs name = none →
      (cmd_PLAY_SOUND true fs (some name) now false st).1
        = .errSoundNotFound name) := by
  refine ⟨?_, ?_, ?_, ?_⟩
  · intro h
    simp [SoundSystem._find_sound_file, h]
  · intro h
    simp [SoundSystem._find_sound_file, h]
  · intro h
    unfold withSuffixWav pyWithSuffix
    rw [h, Nat.sub_zero, List.take_length]
    cases name
    rfl
  · intro h
    rcases hbusy with hb | hb
    · simp [cmd_PLAY_SOUND, hb, hname, h]
    · simp [cmd_PLAY_SOUND, hb, hname, h]

/-- C6 witness: the amended resolution at the concrete unresolvable spec
`nosound` over the `beep.mp3.wav` directory: no extension means `.wav` is
appended, and the not-found error is raised by the command. -/
theorem find_sound_file_resolution_amended_witness :
    (pySuffixLen ("nosound" : String).data = 0 →
      withSuffixWav "nosound" = "nosound" ++ ".wav") ∧
    (SoundSystem._find_sound_file fsBeep "nosound" = none →
      (cmd_PLAY_SOUND true fsBeep (some "nosound") 1 false playingState).1
        = .errSoundNotFound "nosound") :=
  ⟨(find_sound_file_resolution_amended fsBeep "nosound" playingState 1
      (Or.inr (by decide)) (by decide)).2.2.1,
   (find_sound_file_resolution_amended fsBeep "nosound" playingState 1
      (Or.inr (by decide)) (by decide)).2.2.2⟩

/-! ## Claim C7 -/

/-- C7 counterexample: when terminating the tracked stream process raises, a
toggle invoked while a stream is active does NOT stop-and-return: it logs,
clears the handle and falls through to the start logic, so it returns the
"Starting" response, does not record `last_stop_time = now`, and the index
advances — contradicting "for every toggle invoked while a stream is active
... records last_stop_time = now, returns Stopped, and current_stream_index
is left unchanged". -/
theorem stream_stop_exception_counterexample :
    radioActive.stream_active = true ∧
    ( cmd_STREAM_RADIO true urlsTwo 60 10 true radioActive).1
      = .startingInfo 1 "u1" ∧
    ( cmd_STREAM_RADIO true urlsTwo 60 10 true radioActive).2.current_stream_index
      = 1 ∧
    ( cmd_STREAM_RADIO true urlsTwo 60 10 true radioActive).2.last_stream_stop_time
      = some 0 := by
  decide

/-- C7 (amended): on every toggle invoked while a stream is active whose
termination does not raise, the stop branch terminates the tracked process,
clears it, records `last_stop_time = now` and returns Stopped, leaving the
stream index (and everything else) unchanged; if termination raises, the
handler clears the process and falls through to the start logic instead. -/
theorem stream_stop_branch_amended (urls : List String) (timeout now : Int)
    (st : RadioState) (hact : st.stream_active = true) :
    cmd_STREAM_RADIO true urls timeout now false st =
      (.stoppedInfo, { st with stream_active := false,
                               last_stream_stop_time := some now }) := by
  simp [ cmd_STREAM_RADIO, hact]

/-- C7 witness: the amended stop branch at a concrete active state: Stopped is
returned, the stop time is recorded, and the index stays 0. -/
theorem stream_stop_branch_amended_witness :
    radioActive.stream_active = true ∧
    cmd_STREAM_RADIO true urlsTwo 60 10 false radioActive =
      (.stoppedInfo, { radioActive with stream_active := false,
                                        last_stream_stop_time := some 10 }) :=
  ⟨rfl, stream_stop_branch_amended urlsTwo 60 10 radioActive rfl⟩

/-! ## Claim C9 -/

/-- C9 counterexample: a failed stream stop is NOT surfaced as an error
result.  At a concrete toggle whose termination raises, the command responds
with the informational "Starting radio stream" message — no error is raised;
the failure is only logged. -/
theorem stream_stop_failure_not_surfaced_counterexample :
    radioActiveB.stream_active = true ∧
    ( cmd_STREAM_RADIO true urlsThree 60 5 true radioActiveB).1
      = .startingInfo 2 "u2" ∧
    ¬ ( cmd_STREAM_RADIO true urlsThree 60 5 true radioActiveB).1
      = .errMpvMissing := by
  decide

/-- C9 (amended): stream start and stop process failures are log-only, like
sound-playback process errors, not surfaced: the only error `cmd_STREAM_RADIO`
ever raises is "mpv not available" (returned exactly when the stream player
binary was not found), and a failed spawn in the stream worker merely leaves
the process handle cleared, producing no caller-visible result. -/
theorem stream_errors_only_mpv_missing (mpvAvail : Bool) (urls : List String)
    (timeout now : Int) (termRaises : Bool) (st : RadioState) :
    (( cmd_STREAM_RADIO mpvAvail urls timeout now termRaises st).1
        = .errMpvMissing ↔ mpvAvail = false) ∧
    (st.pending_stream ≠ none →
      (_start_stream_thread true st).stream_active = false ∧
      (_start_stream_thread true st).pending_stream = none) := by
  constructor
  · cases mpvAvail
    · simp [ cmd_STREAM_RADIO]
    · simp only [ cmd_STREAM_RADIO, Bool.true_eq_false, if_false, iff_false]
      split
      · intro hc
        exact RadioResult.noConfusion hc
      · rcases h : st.last_stream_stop_time with _ | t
        · simp only [h, radio_start]
          split <;> intro hc <;> exact RadioResult.noConfusion hc
        · simp only [h]
          split
          · split
            · intro hc
              exact RadioResult.noConfusion hc
            · simp only [radio_start]
              split <;> intro hc <;> exact RadioResult.noConfusion hc
          · simp only [radio_start]
            split <;> intro hc <;> exact RadioResult.noConfusion hc
  · intro hp
    rcases h : st.pending_stream with _ | url
    · exact absurd h hp
    · simp [_start_stream_thread, h]

/-- C9 witness: the amended statement at a concrete failed stop (termination
raises) and a pending stream start whose spawn fails. -/
theorem stream_errors_only_mpv_missing_witness :
    (( cmd_STREAM_RADIO true urlsThree 60 5 true radioActiveB).1
        = .errMpvMissing ↔ (true : Bool) = false) ∧
    (({ radioIdle with pending_stream := some "u0" } : RadioState).pending_stream
        ≠ none →
      (_start_stream_thread true
        { radioIdle with pending_stream := some "u0" }).stream_active = false ∧
      (_start_stream_thread true
        { radioIdle with pending_stream := some "u0" }).pending_stream = none) :=
  stream_errors_only_mpv_missing true urlsThree 60 5 true radioActiveB
    |>.1 |> fun h =>
      ⟨h, (stream_errors_only_mpv_missing true urlsThree 60 5 true
        { radioIdle with pending_stream := some "u0" }).2⟩

end ListerSound
